import Mathlib

/-!
Verification of the M720 button remapper (`m720_button_remapper_safe.py`)
and its benchmarking script (`benchmarks/benchmark.py`).

The Python source is shallowly embedded: external effects (subprocess runs,
selector readiness, console prints) are made explicit as data returned by the
embedded functions, and the subprocess environment is passed in as an oracle
mapping a command line to its outcome.
-/

namespace M720

/-! ### Event codes

Numeric values of the `evdev.ecodes` constants used by the script, as defined
by the Linux `input-event-codes.h` header that `evdev` mirrors. -/

def EV_KEY : Nat := 1
def BTN_LEFT : Nat := 272
def BTN_RIGHT : Nat := 273
def BTN_MIDDLE : Nat := 274
def BTN_SIDE : Nat := 275
def BTN_EXTRA : Nat := 276
def BTN_FORWARD : Nat := 277
def BTN_BACK : Nat := 278

/-- An input event as read from the device: `type` (event category),
`code` (button identifier) and `value` (0 release, 1 press, 2 repeat). -/
structure Event where
  type : Nat
  code : Nat
  value : Nat
  deriving DecidableEq, Repr

/-! ### Key injector: `send_key_combo` -/

/-- Outcome of a `subprocess.run(cmd, check=True)` call: normal exit,
non-zero exit (raises `CalledProcessError`), or missing executable
(raises `FileNotFoundError`). -/
inductive RunResult where
  | ok
  | nonZeroExit
  | notFound
  deriving DecidableEq, Repr

/-- The console messages the remapper can print, kept as abstract tags. -/
inductive LogEntry where
  | buttonPressed (code : Nat)
  | sendingPageDown
  | sendingPageUp
  | errorSendingCombo
  | ydotoolNotFound
  deriving DecidableEq, Repr

/-- The `ydotool` command line for the super+page_up chord (line 45). -/
def ydotoolUpCmd : List String := ["ydotool", "key", "125:1", "104:1", "104:0", "125:0"]

/-- The `ydotool` command line for the super+page_down chord (line 47). -/
def ydotoolDownCmd : List String := ["ydotool", "key", "125:1", "109:1", "109:0", "125:0"]

/-- Result of one `send_key_combo` call: its Python return value, the
subprocess command lines it attempted, and the messages it printed. -/
structure SendOut where
  ret : Bool
  invocations : List (List String)
  logs : List LogEntry
  deriving DecidableEq, Repr

/-- One guarded `subprocess.run(cmd, check=True)` under the `try` of
`send_key_combo`, with both `except` arms of lines 49-54. -/
def runYdotool (env : List String → RunResult) (cmd : List String) : SendOut :=
  match env cmd with
  | RunResult.ok => ⟨true, [cmd], []⟩
  | RunResult.nonZeroExit => ⟨false, [cmd], [LogEntry.errorSendingCombo]⟩
  | RunResult.notFound => ⟨false, [cmd], [LogEntry.ydotoolNotFound]⟩

/-- `send_key_combo(keys)` (lines 40-54): dispatch on the combo string; any
other string falls through to `return True` with no subprocess call. -/
def send_key_combo (env : List String → RunResult) (keys : String) : SendOut :=
  if keys = "super+page_up" then runYdotool env ydotoolUpCmd
  else if keys = "super+page_down" then runYdotool env ydotoolDownCmd
  else ⟨true, [], []⟩

/-! ### Event dispatch: the per-event body of `handle_mouse_events` -/

/-- The guard list of line 86-87: the four named button constants followed by
the literal codes 275-278. -/
def mappedList : List Nat :=
  [BTN_SIDE, BTN_EXTRA, BTN_FORWARD, BTN_BACK, 275, 276, 277, 278]

/-- Everything one iteration of the event `for` loop produces:
the `send_key_combo` arguments, the subprocess commands, and the prints. -/
structure EventOut where
  sendCalls : List String
  invocations : List (List String)
  logs : List LogEntry
  deriving DecidableEq, Repr

def EventOut.empty : EventOut := ⟨[], [], []⟩

def EventOut.append (a b : EventOut) : EventOut :=
  ⟨a.sendCalls ++ b.sendCalls, a.invocations ++ b.invocations, a.logs ++ b.logs⟩

/-- Lift a `SendOut` together with the prints made before the call. -/
def sendStep (pre : List LogEntry) (combo : String) (s : SendOut) : EventOut :=
  ⟨[combo], s.invocations, pre ++ s.logs⟩

/-- The body of `for event in device.read()` (lines 80-105): filter to
`EV_KEY`, filter to `value == 1`, guard on the mapped list, then the
if/elif chain choosing the chord. -/
def handleEvent (env : List String → RunResult) (e : Event) : EventOut :=
  if e.type = EV_KEY then
    if e.value = 1 then
      if e.code ∈ mappedList then
        if e.code = BTN_SIDE ∨ e.code = BTN_BACK then
          sendStep [LogEntry.buttonPressed e.code, LogEntry.sendingPageDown]
            "super+page_down" (send_key_combo env "super+page_down")
        else if e.code = BTN_EXTRA ∨ e.code = BTN_FORWARD then
          sendStep [LogEntry.buttonPressed e.code, LogEntry.sendingPageUp]
            "super+page_up" (send_key_combo env "super+page_up")
        else if e.code ∈ [275, 276, 277, 278] then
          if e.code ∈ [275, 278] then
            sendStep [LogEntry.buttonPressed e.code, LogEntry.sendingPageDown]
              "super+page_down" (send_key_combo env "super+page_down")
          else
            sendStep [LogEntry.buttonPressed e.code, LogEntry.sendingPageUp]
              "super+page_up" (send_key_combo env "super+page_up")
        else ⟨[], [], [LogEntry.buttonPressed e.code]⟩
      else EventOut.empty
    else EventOut.empty
  else EventOut.empty

/-- `handleEvent` with the unreachable `elif event.code in [275,276,277,278]`
branch (lines 98-105) deleted; used to state the dead-code equivalence. -/
def handleEventNoExtra (env : List String → RunResult) (e : Event) : EventOut :=
  if e.type = EV_KEY then
    if e.value = 1 then
      if e.code ∈ mappedList then
        if e.code = BTN_SIDE ∨ e.code = BTN_BACK then
          sendStep [LogEntry.buttonPressed e.code, LogEntry.sendingPageDown]
            "super+page_down" (send_key_combo env "super+page_down")
        else if e.code = BTN_EXTRA ∨ e.code = BTN_FORWARD then
          sendStep [LogEntry.buttonPressed e.code, LogEntry.sendingPageUp]
            "super+page_up" (send_key_combo env "super+page_up")
        else ⟨[], [], [LogEntry.buttonPressed e.code]⟩
      else EventOut.empty
    else EventOut.empty
  else EventOut.empty

/-- Processing of one drained batch of events, in order. -/
def handleEvents (env : List String → RunResult) : List Event → EventOut
  | [] => EventOut.empty
  | e :: rest => (handleEvent env e).append (handleEvents env rest)

/-- A press event whose code the dispatch maps to a chord. -/
def isMappedPress (e : Event) : Bool :=
  decide (e.type = EV_KEY ∧ e.value = 1 ∧
    e.code ∈ [BTN_SIDE, BTN_EXTRA, BTN_FORWARD, BTN_BACK])

/-! ### The dispatch loop: `handle_mouse_events` (lines 56-115) -/

/-- What one `selector.select(timeout=1)` round yields: a timeout with no
data, a drained batch, a batch cut short by `BlockingIOError`, a
`KeyboardInterrupt`, or some other exception raised into the loop. -/
inductive SelectStep where
  | timeoutNoData
  | batch (events : List Event)
  | batchTransient (events : List Event)
  | interruptSig
  | unexpectedErr (msg : String)
  deriving DecidableEq, Repr

/-- How the `while True` body terminated, when it did. -/
inductive BodyOutcome where
  | interrupt
  | err (msg : String)
  deriving DecidableEq, Repr

/-- Run the `while True` loop over a script of select rounds. A
`batchTransient` round processes its events and hits `BlockingIOError`,
which the `except` of lines 107-109 turns into `continue`; only an
interrupt or an unexpected exception ends the body. -/
def runSteps (env : List String → RunResult) : List SelectStep → EventOut × Option BodyOutcome
  | [] => (EventOut.empty, none)
  | SelectStep.timeoutNoData :: rest => runSteps env rest
  | SelectStep.batch evs :: rest =>
      let r := runSteps env rest
      ((handleEvents env evs).append r.1, r.2)
  | SelectStep.batchTransient evs :: rest =>
      let r := runSteps env rest
      ((handleEvents env evs).append r.1, r.2)
  | SelectStep.interruptSig :: _ => (EventOut.empty, some BodyOutcome.interrupt)
  | SelectStep.unexpectedErr m :: _ => (EventOut.empty, some (BodyOutcome.err m))

/-- State of `handle_mouse_events` when it hands control back:
the accumulated outputs, the selector registration state, and how the call
ended — `none` while the loop is still running, `some none` for a normal
return (interrupt caught at line 111), `some (some m)` for an exception
that propagates to the caller after the `finally`. -/
structure LoopResult where
  out : EventOut
  selRegistered : Bool
  selClosed : Bool
  returned : Option (Option String)
  deriving DecidableEq, Repr

/-- `handle_mouse_events(device)`: `selector.register` (line 70), then the
guarded loop; `except KeyboardInterrupt` swallows the interrupt, and the
`finally` of lines 113-115 unregisters and closes on every exit path. -/
def handle_mouse_events (env : List String → RunResult) (steps : List SelectStep) : LoopResult :=
  match (runSteps env steps).2 with
  | none => ⟨(runSteps env steps).1, true, false, none⟩
  | some BodyOutcome.interrupt => ⟨(runSteps env steps).1, false, true, some none⟩
  | some (BodyOutcome.err m) => ⟨(runSteps env steps).1, false, true, some (some m)⟩

/-! ### Device locator: `find_m720_device` (lines 15-38) and `main` (131-171) -/

/-- An enumerated input device: display name, path, and the capability
dictionary restricted to what the script reads (event type to key codes). -/
structure PyDevice where
  name : String
  path : String
  capabilities : List (Nat × List Nat)
  deriving DecidableEq, Repr

/-- Dictionary lookup `capabilities[t]`, `none` when `t not in capabilities`. -/
def capLookup (caps : List (Nat × List Nat)) (t : Nat) : Option (List Nat) :=
  (caps.find? (fun p => p.1 == t)).map Prod.snd

/-- Substring test backing Python's `"M720" in device.name`. -/
def strContains (hay needle : String) : Bool :=
  hay.toList.tails.any (fun t => needle.toList.isPrefixOf t)

/-- The `mouse_buttons` list of lines 29-32. -/
def mouse_buttons : List Nat :=
  [BTN_LEFT, BTN_RIGHT, BTN_MIDDLE, BTN_SIDE, BTN_EXTRA, BTN_FORWARD, BTN_BACK]

/-- The full per-device predicate of the locator loop: name matches one of
the substrings, and the `EV_KEY` capabilities hold at least one mouse
button. Stated separately so the selection order can be characterised. -/
def goodDevice (d : PyDevice) : Bool :=
  (strContains d.name "M720" || strContains d.name "Logitech") &&
    (match capLookup d.capabilities EV_KEY with
     | some keys => mouse_buttons.any (fun b => decide (b ∈ keys))
     | none => false)

/-- `find_m720_device()` (lines 15-38): scan devices in order; on a name
match check the capabilities; return the device only when both hold,
otherwise keep scanning; `None` when the scan is exhausted. -/
def find_m720_device : List PyDevice → Option PyDevice
  | [] => none
  | d :: rest =>
      if strContains d.name "M720" || strContains d.name "Logitech" then
        match capLookup d.capabilities EV_KEY with
        | some keys =>
            if mouse_buttons.any (fun b => decide (b ∈ keys)) then some d
            else find_m720_device rest
        | none => find_m720_device rest
      else find_m720_device rest

/-- How `main()` (lines 131-171) ends, up to the point where the loop is
entered: the not-found arm carries the diagnostic listing of lines 152-155. -/
inductive MainOutcome where
  | exitNoRoot
  | exitYdotoolFail
  | exitNotFound (listing : List (String × String))
  | running (d : PyDevice)
  deriving DecidableEq, Repr

/-- The control flow of `main()` before the event loop: privilege check,
ydotool setup, then device lookup; when the lookup fails it prints every
enumerated device's name and path and returns. -/
def mainFind (euid : Nat) (ydotoolOk : Bool) (devices : List PyDevice) : MainOutcome :=
  if euid ≠ 0 then MainOutcome.exitNoRoot
  else if ¬ ydotoolOk then MainOutcome.exitYdotoolFail
  else
    match find_m720_device devices with
    | none => MainOutcome.exitNotFound (devices.map fun d => (d.name, d.path))
    | some d => MainOutcome.running d

/-- Sample enumerated device that matches neither name substring. -/
def demoKeyboard : PyDevice :=
  ⟨"AT Translated Set 2 keyboard", "/dev/input/event0", [(1, [30, 48])]⟩

/-- Sample enumerated device that satisfies both locator conditions. -/
def demoMouse : PyDevice :=
  ⟨"Logitech M720 Triathlon", "/dev/input/event5",
    [(1, [272, 273, 274, 275, 276, 277, 278])]⟩

end M720

/-! ### Benchmark script: `benchmarks/benchmark.py` -/

namespace Bench

/-- How each benchmark path obtains its latency numbers, read off the code:
the Python path times a `time.sleep(0.001)` stand-in (lines 110-120), the
kernel path computes a formula from `perf_counter` (line 176), the hybrid
path returns fixed constants (lines 213-227). None measures real events. -/
inductive LatencyModel where
  | sleepSimulated
  | formulaSimulated
  | constantEstimate
  deriving DecidableEq, Repr

/-- Observable behaviour of `run_all_benchmarks`: the external commands it
spawns and, per approach run, the label and latency model. -/
structure BenchTrace where
  commands : List (List String)
  approaches : List (String × LatencyModel)
  deriving DecidableEq, Repr

def pythonCmd : List String := ["sudo", "python3", "../m720_button_remapper_safe.py"]
def insmodCmd : List String :=
  ["sudo", "insmod", "../kernel-module/c-implementation/m720_remapper.ko"]
def rmmodCmd : List String := ["sudo", "rmmod", "m720_remapper"]

/-- `run_all_benchmarks` (lines 46-73): each approach runs iff its
existence check passes; the method reads no command-line arguments, so the
trace depends only on the three filesystem checks. -/
def run_all_benchmarks (pyExists kmodExists hybridExists : Bool) : BenchTrace :=
  let t1 : BenchTrace :=
    if pyExists then ⟨[pythonCmd], [("Python Userspace", LatencyModel.sleepSimulated)]⟩
    else ⟨[], []⟩
  let t2 : BenchTrace :=
    if kmodExists then ⟨[insmodCmd, rmmodCmd], [("Kernel Module", LatencyModel.formulaSimulated)]⟩
    else ⟨[], []⟩
  let t3 : BenchTrace :=
    if hybridExists then ⟨[], [("Hybrid (Estimated)", LatencyModel.constantEstimate)]⟩
    else ⟨[], []⟩
  ⟨t1.commands ++ t2.commands ++ t3.commands, t1.approaches ++ t2.approaches ++ t3.approaches⟩

/-- The argv preamble of `main()` (lines 321-328): when not root and
`--simulate` is absent, print guidance and append `--simulate`. -/
def benchPreamble (euid : Nat) (argv : List String) : List String :=
  if euid ≠ 0 ∧ ¬ argv.contains "--simulate" then
    if ¬ argv.contains "--simulate" then argv ++ ["--simulate"] else argv
  else argv

/-- `main()` of the benchmark script: the preamble, then
`run_all_benchmarks`, whose trace never consults argv. -/
def benchMain (euid : Nat) (argv : List String) (pyExists kmodExists hybridExists : Bool) :
    List String × BenchTrace :=
  (benchPreamble euid argv, run_all_benchmarks pyExists kmodExists hybridExists)

end Bench

open M720 Bench

/-! ### Helper lemmas -/

lemma mappedList_mem (c : Nat) :
    c ∈ mappedList ↔ (c = 275 ∨ c = 276 ∨ c = 277 ∨ c = 278) := by
  simp [mappedList, BTN_SIDE, BTN_EXTRA, BTN_FORWARD, BTN_BACK]
  tauto

lemma handleEvent_sendCalls_len (env : List String → RunResult) (e : Event) :
    ((handleEvent env e).sendCalls).length = if isMappedPress e then 1 else 0 := by
  rcases e with ⟨t, c, v⟩
  by_cases ht : t = EV_KEY
  · by_cases hv : v = 1
    · by_cases hc : c ∈ mappedList
      · have hc' := (mappedList_mem c).mp hc
        subst ht; subst hv
        rcases hc' with h | h | h | h <;> subst h <;>
          simp [handleEvent, isMappedPress, sendStep, mappedList,
            BTN_SIDE, BTN_EXTRA, BTN_FORWARD, BTN_BACK]
      · have hc4 : c ∉ ([BTN_SIDE, BTN_EXTRA, BTN_FORWARD, BTN_BACK] : List Nat) := by
          intro h
          apply hc
          rw [mappedList_mem]
          simpa [BTN_SIDE, BTN_EXTRA, BTN_FORWARD, BTN_BACK] using h
        simp [handleEvent, isMappedPress, ht, hv, hc, hc4, EventOut.empty]
    · simp [handleEvent, isMappedPress, ht, hv, EventOut.empty]
  · simp [handleEvent, isMappedPress, ht, EventOut.empty]

lemma handleEvent_sendCalls_env (env env' : List String → RunResult) (e : Event) :
    (handleEvent env e).sendCalls = (handleEvent env' e).sendCalls := by
  unfold handleEvent sendStep
  split_ifs <;> rfl

lemma handleEvents_sendCalls_env (env env' : List String → RunResult) (events : List Event) :
    (handleEvents env events).sendCalls = (handleEvents env' events).sendCalls := by
  induction events with
  | nil => rfl
  | cons e rest ih =>
      simp [handleEvents, EventOut.append, ih, handleEvent_sendCalls_env env env' e]

lemma runSteps_outcome_env (env env' : List String → RunResult) (steps : List SelectStep) :
    (runSteps env steps).2 = (runSteps env' steps).2 := by
  induction steps with
  | nil => rfl
  | cons s rest ih => cases s <;> simp [runSteps, ih]

lemma find_m720_eq_find? (ds : List PyDevice) :
    find_m720_device ds = ds.find? goodDevice := by
  induction ds with
  | nil => rfl
  | cons d rest ih =>
      by_cases hn : (strContains d.name "M720" || strContains d.name "Logitech") = true
      · rcases hcap : capLookup d.capabilities EV_KEY with _ | keys
        · have hg : goodDevice d = false := by simp [goodDevice, hn, hcap]
          simp [find_m720_device, hn, hcap, List.find?, hg, ih]
        · by_cases hb : mouse_buttons.any (fun b => decide (b ∈ keys)) = true
          · have hg : goodDevice d = true := by simp [goodDevice, hn, hcap, hb]
            simp [find_m720_device, hn, hcap, hb, List.find?, hg]
          · have hg : goodDevice d = false := by
              simp only [goodDevice, hcap, Bool.and_eq_true] at *
              simp [hb]
            simp [find_m720_device, hn, hcap, hb, List.find?, hg, ih]
      · have hn' : (strContains d.name "M720" || strContains d.name "Logitech") = false := by
          simpa using hn
        have hg : goodDevice d = false := by simp [goodDevice, hn']
        simp [find_m720_device, hn, List.find?, hg, ih]

lemma find?_first_match {α : Type} (p : α → Bool) (l : List α) (a : α)
    (h : l.find? p = some a) :
    p a = true ∧ ∃ pre post, l = pre ++ a :: post ∧ ∀ x ∈ pre, p x = false := by
  induction l with
  | nil => simp [List.find?] at h
  | cons b rest ih =>
      by_cases hb : p b = true
      · rw [List.find?_cons_of_pos _ hb] at h
        obtain rfl : b = a := by injection h
        exact ⟨hb, [], rest, rfl, by simp⟩
      · rw [List.find?_cons_of_neg _ (by simpa using hb)] at h
        obtain ⟨hp, pre, post, hl, hpre⟩ := ih h
        refine ⟨hp, b :: pre, post, by simp [hl], ?_⟩
        intro x hx
        rcases List.mem_cons.mp hx with rfl | hx
        · simpa using hb
        · exact hpre x hx


/-! ### Claim theorems -/

/-- C1: over any finite event sequence, the dispatch loop performs exactly one
`send_key_combo` call per event with kind `EV_KEY`, `value == 1`, and code in
{BTN_SIDE, BTN_EXTRA, BTN_FORWARD, BTN_BACK}; release (`value == 0`) and
repeat (`value == 2`) events never trigger an injection. -/
theorem injection_count_matches_mapped_presses (env : List String → RunResult)
    (events : List Event) :
    ((handleEvents env events).sendCalls).length
        = (events.filter isMappedPress).length ∧
    ∀ e : Event, e.value = 0 ∨ e.value = 2 → (handleEvent env e).sendCalls = [] := by
  constructor
  · induction events with
    | nil => rfl
    | cons e rest ih =>
        by_cases hp : isMappedPress e = true
        · simp [handleEvents, EventOut.append, List.filter_cons, hp,
            handleEvent_sendCalls_len, ih]
          omega
        · simp [handleEvents, EventOut.append, List.filter_cons, hp,
            handleEvent_sendCalls_len, ih]
  · intro e hv
    have hv1 : ¬ e.value = 1 := by rcases hv with h | h <;> omega
    by_cases ht : e.type = EV_KEY <;> simp [handleEvent, ht, hv1, EventOut.empty]

/-- Witness for C1 at a concrete event sequence and environment. -/
theorem injection_count_matches_mapped_presses_witness :
    ((handleEvents (fun _ => RunResult.ok)
        [⟨1, 275, 1⟩, ⟨1, 275, 0⟩, ⟨1, 272, 1⟩, ⟨2, 8, 1⟩, ⟨1, 277, 2⟩]).sendCalls).length
      = (([⟨1, 275, 1⟩, ⟨1, 275, 0⟩, ⟨1, 272, 1⟩, ⟨2, 8, 1⟩, ⟨1, 277, 2⟩] :
            List Event).filter isMappedPress).length
    ∧ (handleEvent (fun _ => RunResult.ok) ⟨1, 276, 0⟩).sendCalls = [] :=
  ⟨(injection_count_matches_mapped_presses (fun _ => RunResult.ok) _).1,
   (injection_count_matches_mapped_presses (fun _ => RunResult.ok) []).2
      ⟨1, 276, 0⟩ (Or.inl rfl)⟩

/-- C2: aliasing — BTN_SIDE and BTN_BACK both dispatch the "super+page_down"
chord and BTN_EXTRA and BTN_FORWARD both dispatch the "super+page_up" chord,
each mapped code giving exactly one action; `send_key_combo` routes each chord
name to its single fixed ydotool command. -/
theorem alias_codes_map_to_same_chord (env : List String → RunResult) :
    (handleEvent env ⟨EV_KEY, BTN_SIDE, 1⟩).sendCalls = ["super+page_down"] ∧
    (handleEvent env ⟨EV_KEY, BTN_BACK, 1⟩).sendCalls = ["super+page_down"] ∧
    (handleEvent env ⟨EV_KEY, BTN_EXTRA, 1⟩).sendCalls = ["super+page_up"] ∧
    (handleEvent env ⟨EV_KEY, BTN_FORWARD, 1⟩).sendCalls = ["super+page_up"] ∧
    (send_key_combo env "super+page_down").invocations = [ydotoolDownCmd] ∧
    (send_key_combo env "super+page_up").invocations = [ydotoolUpCmd] := by
  have hdown : send_key_combo env "super+page_down" = runYdotool env ydotoolDownCmd := by
    simp [send_key_combo]
  have hup : send_key_combo env "super+page_up" = runYdotool env ydotoolUpCmd := by
    simp [send_key_combo]
  refine ⟨rfl, rfl, rfl, rfl, ?_, ?_⟩
  · rw [hdown]; unfold runYdotool; cases env ydotoolDownCmd <;> rfl
  · rw [hup]; unfold runYdotool; cases env ydotoolUpCmd <;> rfl

/-- C3 counterexample: a press of the unmapped code BTN_LEFT (272) produces
zero injection calls but also zero log entries — not the single "unmapped" log
entry the claim requires. -/
theorem unmapped_press_logging_counterexample :
    (handleEvent (fun _ => RunResult.ok) ⟨EV_KEY, BTN_LEFT, 1⟩).sendCalls = [] ∧
    ((handleEvent (fun _ => RunResult.ok) ⟨EV_KEY, BTN_LEFT, 1⟩).logs).length = 0 ∧
    ¬ ((handleEvent (fun _ => RunResult.ok) ⟨EV_KEY, BTN_LEFT, 1⟩).logs).length = 1 :=
  ⟨rfl, rfl, by decide⟩

/-- C3 (amended): for every event with kind EV_KEY, `value == 1`, and a code
not in the mapped set, the dispatch loop performs zero injection calls and
emits zero log entries — unmapped codes are ignored without logging. -/
theorem unmapped_press_silently_ignored (env : List String → RunResult)
    (e : Event) (ht : e.type = EV_KEY) (hv : e.value = 1)
    (hc : e.code ∉ ([BTN_SIDE, BTN_EXTRA, BTN_FORWARD, BTN_BACK] : List Nat)) :
    handleEvent env e = EventOut.empty := by
  have hm : e.code ∉ mappedList := by
    rw [mappedList_mem]
    intro h
    apply hc
    simpa [BTN_SIDE, BTN_EXTRA, BTN_FORWARD, BTN_BACK] using h
  simp [handleEvent, ht, hv, hm]

/-- Witness for the amended C3 at a concrete unmapped press. -/
theorem unmapped_press_silently_ignored_witness :
    handleEvent (fun _ => RunResult.ok) ⟨1, 272, 1⟩ = EventOut.empty :=
  unmapped_press_silently_ignored _ _ rfl rfl (by decide)

/-- C4: `send_key_combo` returns `False` and prints a report both when the
tool is absent (`FileNotFoundError`) and when it exits non-zero
(`CalledProcessError`); injection outcomes never affect dispatch — the loop
issues the same calls and terminates at the same points as when every
injection succeeds. -/
theorem injection_failure_reported_and_nonfatal (env : List String → RunResult) :
    ((env ydotoolUpCmd = RunResult.notFound →
        (send_key_combo env "super+page_up").ret = false ∧
        (send_key_combo env "super+page_up").logs = [LogEntry.ydotoolNotFound]) ∧
     (env ydotoolUpCmd = RunResult.nonZeroExit →
        (send_key_combo env "super+page_up").ret = false ∧
        (send_key_combo env "super+page_up").logs = [LogEntry.errorSendingCombo]) ∧
     (env ydotoolDownCmd = RunResult.notFound →
        (send_key_combo env "super+page_down").ret = false ∧
        (send_key_combo env "super+page_down").logs = [LogEntry.ydotoolNotFound]) ∧
     (env ydotoolDownCmd = RunResult.nonZeroExit →
        (send_key_combo env "super+page_down").ret = false ∧
        (send_key_combo env "super+page_down").logs = [LogEntry.errorSendingCombo])) ∧
    (∀ events : List Event,
      (handleEvents env events).sendCalls
        = (handleEvents (fun _ => RunResult.ok) events).sendCalls) ∧
    ∀ steps : List SelectStep,
      (runSteps env steps).2 = (runSteps (fun _ => RunResult.ok) steps).2 := by
  refine ⟨⟨?_, ?_, ?_, ?_⟩, fun events => handleEvents_sendCalls_env _ _ _,
    fun steps => runSteps_outcome_env _ _ _⟩ <;>
    · intro h
      simp [send_key_combo, runYdotool, h]

/-- Witness for C4 with an environment where the tool is absent. -/
theorem injection_failure_reported_and_nonfatal_witness :
    ((send_key_combo (fun _ => RunResult.notFound) "super+page_up").ret = false ∧
      (send_key_combo (fun _ => RunResult.notFound) "super+page_up").logs
        = [LogEntry.ydotoolNotFound]) ∧
    (handleEvents (fun _ => RunResult.notFound) [⟨1, 275, 1⟩, ⟨1, 276, 1⟩]).sendCalls
      = (handleEvents (fun _ => RunResult.ok) [⟨1, 275, 1⟩, ⟨1, 276, 1⟩]).sendCalls :=
  ⟨(injection_failure_reported_and_nonfatal (fun _ => RunResult.notFound)).1.1 rfl,
   (injection_failure_reported_and_nonfatal (fun _ => RunResult.notFound)).2.1 _⟩

/-- C5: `find_m720_device` returns the first enumerated device whose name
contains "M720" or "Logitech" and whose EV_KEY capabilities include at least
one mouse button code; when no device qualifies it returns `None`, whereupon
`main` prints every enumerated device's name and path and exits. -/
theorem find_device_first_match_and_notfound (devices : List PyDevice) :
    (∀ d : PyDevice, find_m720_device devices = some d →
        goodDevice d = true ∧
        ∃ pre post, devices = pre ++ d :: post ∧ ∀ x ∈ pre, goodDevice x = false) ∧
    (find_m720_device devices = none →
        (∀ d ∈ devices, goodDevice d = false) ∧
        mainFind 0 true devices
          = MainOutcome.exitNotFound (devices.map fun d => (d.name, d.path))) := by
  constructor
  · intro d h
    rw [find_m720_eq_find?] at h
    exact find?_first_match _ _ _ h
  · intro h
    refine ⟨?_, ?_⟩
    · intro d hd
      have hnone := List.find?_eq_none.mp (by rw [← find_m720_eq_find?]; exact h) d hd
      simpa using hnone
    · simp [mainFind, h]

/-- Witness for C5: a qualifying device is accepted, and on a listing with no
qualifying device `main` reports the full device listing. -/
theorem find_device_first_match_and_notfound_witness :
    goodDevice demoMouse = true ∧
    mainFind 0 true [demoKeyboard]
      = MainOutcome.exitNotFound
          [("AT Translated Set 2 keyboard", "/dev/input/event0")] :=
  ⟨((find_device_first_match_and_notfound [demoMouse]).1 demoMouse rfl).1,
   ((find_device_first_match_and_notfound [demoKeyboard]).2 rfl).2⟩

/-- C6: whenever `handle_mouse_events` hands control back — interrupt caught or
unexpected exception propagating — the `finally` block has unregistered the
device from the selector and closed the selector first. -/
theorem loop_releases_selector_on_exit (env : List String → RunResult)
    (steps : List SelectStep) (ret : Option String)
    (h : (handle_mouse_events env steps).returned = some ret) :
    (handle_mouse_events env steps).selRegistered = false ∧
    (handle_mouse_events env steps).selClosed = true := by
  have hh := h
  unfold handle_mouse_events at hh ⊢
  rcases hr : (runSteps env steps).2 with _ | o
  · rw [hr] at hh
    simp at hh
  · rcases o <;> simp [hr]

/-- Witness for C6 at a script that ends with an operator interrupt. -/
theorem loop_releases_selector_on_exit_witness :
    (handle_mouse_events (fun _ => RunResult.ok) [SelectStep.interruptSig]).selRegistered
        = false ∧
    (handle_mouse_events (fun _ => RunResult.ok) [SelectStep.interruptSig]).selClosed
        = true :=
  loop_releases_selector_on_exit _ _ none rfl

/-- C7: a batch cut short by `BlockingIOError` behaves exactly like a cleanly
drained batch — the events read before the error are processed, the loop body
does not terminate there, and the remaining select rounds proceed unchanged. -/
theorem transient_read_treated_as_end_of_batch (env : List String → RunResult)
    (evs : List Event) (rest : List SelectStep) :
    runSteps env (SelectStep.batchTransient evs :: rest)
        = runSteps env (SelectStep.batch evs :: rest) ∧
    (runSteps env (SelectStep.batchTransient evs :: rest)).1
        = (handleEvents env evs).append (runSteps env rest).1 ∧
    (runSteps env (SelectStep.batchTransient evs :: rest)).2 = (runSteps env rest).2 :=
  ⟨rfl, rfl, rfl⟩

/-- C8: the `--simulate` switch does not change the benchmark's behaviour —
the trace of spawned commands and latency models is identical with and without
the flag, identical for root and non-root, and even with `--simulate` the
script still spawns privileged `sudo` commands. -/
theorem simulate_flag_has_no_effect :
    (benchMain 1000 ["benchmark.py", "--simulate"] true true true).2
        = (benchMain 1000 ["benchmark.py"] true true true).2 ∧
    (benchMain 1000 ["benchmark.py", "--simulate"] true true true).2
        = (benchMain 0 ["benchmark.py"] true true true).2 ∧
    insmodCmd ∈ (benchMain 1000 ["benchmark.py", "--simulate"] true true true).2.commands ∧
    ∀ (euid euid' : Nat) (argv argv' : List String) (py km hy : Bool),
      (benchMain euid argv py km hy).2 = (benchMain euid' argv' py km hy).2 :=
  ⟨rfl, rfl, by decide, fun _ _ _ _ _ _ _ => rfl⟩

/-- C9: the `elif event.code in [275, 276, 277, 278]` branch is dead code —
those literals are exactly BTN_SIDE, BTN_EXTRA, BTN_FORWARD, BTN_BACK, all
consumed by the two earlier branches — so the dispatch with that branch
removed is extensionally equal to the dispatch as written. -/
theorem extra_codes_branch_unreachable :
    ([275, 276, 277, 278] : List Nat)
        = [BTN_SIDE, BTN_EXTRA, BTN_FORWARD, BTN_BACK] ∧
    ∀ (env : List String → RunResult) (e : Event),
      handleEvent env e = handleEventNoExtra env e := by
  refine ⟨rfl, fun env e => ?_⟩
  rcases e with ⟨t, c, v⟩
  unfold handleEvent handleEventNoExtra
  by_cases ht : t = EV_KEY <;> simp [ht]
  by_cases hv : v = 1 <;> simp [hv]
  by_cases hc : c ∈ mappedList <;> simp [hc]
  by_cases h1 : c = BTN_SIDE ∨ c = BTN_BACK <;> simp [h1]
  by_cases h2 : c = BTN_EXTRA ∨ c = BTN_FORWARD <;> simp [h2]
  exfalso
  have hc' := (mappedList_mem c).mp hc
  simp [BTN_SIDE, BTN_BACK] at h1
  simp [BTN_EXTRA, BTN_FORWARD] at h2
  rcases hc' with h | h | h | h <;> subst h <;> tauto

/-- C10: for any combo string other than "super+page_up" and
"super+page_down", `send_key_combo` runs no subprocess, prints nothing, and
returns `True` — indistinguishable by return value from a successful
injection. -/
theorem unknown_combo_noop_returns_true (env : List String → RunResult)
    (keys : String) (h1 : keys ≠ "super+page_up") (h2 : keys ≠ "super+page_down") :
    send_key_combo env keys = ⟨true, [], []⟩ := by
  simp [send_key_combo, h1, h2]

/-- Witness for C10 at a concrete unrecognised combo string. -/
theorem unknown_combo_noop_returns_true_witness :
    send_key_combo (fun _ => RunResult.nonZeroExit) "ctrl+alt+tab" = ⟨true, [], []⟩ :=
  unknown_combo_noop_returns_true _ _ (by decide) (by decide)
